import Mathlib

/-!
Shallow embedding of the core of the NotTrcpTwitterBot repository
(`src/app/trackfollowers.py`, `src/app/trackingreport.py`,
`src/app/lib/clients_db.py`, `src/app/lib/substitution.py`,
`src/app/lib/lock.py`) together with theorems settling the spec claims.

Modelling conventions:
* Python dicts become association lists (`List (String × α)`) in insertion
  order; `d[k] = v` becomes `dictInsert` (replace the first binding of `k`,
  else append), and `k in d` / `d[k]` become `List.lookup`-style operations.
* Python exceptions become `Except PyErr` results.
* `datetime` values become natural numbers counting seconds; a date string
  parsed by `strptime(_, "%Y-%m-%d")` becomes a day number `d`, whose parsed
  datetime (midnight) is `d * 86400` seconds; an unparseable date string is
  modelled as `none`.
* `random.choice` becomes an explicit oracle `choices : Nat → Nat` giving, for
  each substitution step, the index drawn (reduced mod the list length).
* Unbounded Python loops are run on explicit fuel; exhausting the fuel is the
  observable marker for a computation that has not returned.
-/

namespace NotTrcp

/-- Python exception outcomes that the embedded code can raise. -/
inductive PyErr where
  | valueError
  | keyError (k : String)
  | typeError
  | indexError
deriving DecidableEq, Repr

/-- Python dict assignment `d[k] = v` on an insertion-ordered association
list: replace the first binding of `k` if present, else append. -/
def dictInsert {α : Type} : List (String × α) → String → α → List (String × α)
  | [], k, v => [(k, v)]
  | (k', v') :: rest, k, v =>
    if k' == k then (k, v) :: rest else (k', v') :: dictInsert rest k v

/-! ## ChangeDetector (`FollowerTracker.compare_followers`, trackfollowers.py lines 178-206) -/

/-- Report produced by `compare_followers`: the dict
`{"added": added_followers, "deleted": deleted_followers}`. -/
structure ChangeReport where
  added : List Nat
  deleted : List Nat
deriving DecidableEq, Repr

/-- Pure core of `compare_followers`: the two accumulation loops.
`added_followers` collects followers not in `old_followers`;
`deleted_followers` collects old followers not in `followers`. -/
def follower_diff (followers old_followers : List Nat) : ChangeReport :=
  { added := followers.filter (fun f => !(old_followers.contains f))
    deleted := old_followers.filter (fun f => !(followers.contains f)) }

/-- `FollowerTracker.compare_followers`: loading the previous snapshot may
yield `none` (load failed with a real error), in which case the method
returns `None`; otherwise it returns the diff record. -/
def compare_followers (followers : List Nat) (old_followers : Option (List Nat)) :
    Option ChangeReport :=
  match old_followers with
  | none => none
  | some old => some (follower_diff followers old)

/-! ## NotificationGate (`TrackingReporter`, trackingreport.py lines 87-125) -/

/-- The `last_report` dict: screen name to last-sent timestamp (seconds). -/
def Gate : Type := List (String × Nat)

/-- `TrackingReporter.is_new_report`: true when `screen_name` has no entry in
`last_report`, else true exactly when the stored send time is strictly
earlier than the report's generation time. -/
def is_new_report (last_report : Gate) (report_date : Nat) (screen_name : String) : Bool :=
  match List.lookup screen_name last_report with
  | none => true
  | some last_dm_time => decide (last_dm_time < report_date)

/-- The gate update `self.last_report[screen_name] = now` performed inside
`send_report` after a successful delivery. -/
def record_sent (last_report : Gate) (screen_name : String) (now : Nat) : Gate :=
  dictInsert last_report screen_name now

/-- `TrackingReporter.send_report`: attempt the external
`PostDirectMessage` (its outcome is the parameter `sink_ok`); on success
record the send time and return `True`, on an exception log and return
`False` with the gate untouched. -/
def send_report (sink_ok : Bool) (now : Nat) (screen_name : String)
    (last_report : Gate) : Bool × Gate :=
  if sink_ok then (true, record_sent last_report screen_name now)
  else (false, last_report)

/-! ## ClientRegistry (`ClientDb`, clients_db.py) -/

/-- Values produced by `json.load`. -/
inductive Json where
  | obj (fields : List (String × Json))
  | arr (elems : List Json)
  | str (s : String)
  | num (n : Int)
  | bool (b : Bool)
  | null

/-- State of the registry backing file `clients.json` as seen by
`load_clients`: absent, present but unparseable, or parsed JSON. -/
inductive FileState where
  | missing
  | unparseable
  | content (j : Json)

/-- Python subscripting `j["clients"]` on a parsed JSON value: a `KeyError`
when the object lacks the key, a `TypeError` when the value is not a dict. -/
def jsonGetItem (j : Json) (k : String) : Except PyErr Json :=
  match j with
  | Json.obj fields =>
    match List.lookup k fields with
    | some v => Except.ok v
    | none => Except.error (PyErr.keyError k)
  | _ => Except.error PyErr.typeError

/-- `ClientDb.load_clients` (clients_db.py lines 35-51): start from the
default `{"clients": {}}`; a `FileNotFoundError` or any parse exception is
caught and logged, leaving the default in place; the final lookup
`client_db["clients"]` happens outside the handlers. -/
def load_clients (file : FileState) : Except PyErr Json :=
  let client_db : Json :=
    match file with
    | FileState.missing => Json.obj [("clients", Json.obj [])]
    | FileState.unparseable => Json.obj [("clients", Json.obj [])]
    | FileState.content j => j
  jsonGetItem client_db "clients"

/-- Subscription record as accessed by `active_clients`: the `"active"` flag
and the `"subscription_ends"` date. The date is the result of
`strptime(end_date, "%Y-%m-%d")`: `some d` is the parsed day number,
`none` an unparseable string. -/
structure ClientRec where
  active : Bool
  subscription_ends : Option Nat
deriving DecidableEq, Repr

/-- Python tuple-unpacking `screen_name, client = k` of a string `k` (as in
`for screen_name, client in clients:` iterating a dict, which yields keys):
succeeds only when the string has exactly two characters, otherwise raises
`ValueError`. -/
def unpack2 (s : String) : Except PyErr (String × String) :=
  match s.data with
  | [a, b] => Except.ok (String.mk [a], String.mk [b])
  | _ => Except.error PyErr.valueError

/-- First loop of `merge_clients` (clients_db.py line 66): iterate the KEYS of
`clients` (dict iteration yields keys), unpack each key into
`screen_name, client`, and keep the pair when `screen_name` is among the keys
of `new_clients`. -/
def mergeLoop1 (newKeys : List String) :
    List String → List (String × String) → Except PyErr (List (String × String))
  | [], acc => Except.ok acc
  | k :: rest, acc =>
    match unpack2 k with
    | Except.error e => Except.error e
    | Except.ok (screen_name, client) =>
      let acc' := if newKeys.contains screen_name then dictInsert acc screen_name client else acc
      mergeLoop1 newKeys rest acc'

/-- Second loop of `merge_clients` (clients_db.py line 70): iterate the KEYS
of `new_clients`, unpack each, and insert when `screen_name` is not already a
key of the merged dict. -/
def mergeLoop2 :
    List String → List (String × String) → Except PyErr (List (String × String))
  | [], acc => Except.ok acc
  | k :: rest, acc =>
    match unpack2 k with
    | Except.error e => Except.error e
    | Except.ok (screen_name, client) =>
      let acc' := if (acc.map Prod.fst).contains screen_name then acc
        else dictInsert acc screen_name client
      mergeLoop2 rest acc'

/-- `ClientDb.merge_clients` (clients_db.py lines 53-74) as written: both
loops iterate the dicts directly (`for screen_name, client in clients:`),
so each loop unpacks dictionary KEYS, not key/value pairs. -/
def merge_clients {α : Type} (clients new_clients : List (String × α)) :
    Except PyErr (List (String × String)) :=
  match mergeLoop1 (new_clients.map Prod.fst) (clients.map Prod.fst) [] with
  | Except.error e => Except.error e
  | Except.ok acc => mergeLoop2 (new_clients.map Prod.fst) acc

/-- `ClientDb.subscription_ended` (clients_db.py lines 93-111): parse the end
date (midnight, `d * 86400` seconds) and compare it strictly against the
current datetime `now`; any exception (unparseable date) is caught and the
function returns `False`. -/
def subscription_ended (end_date : Option Nat) (now : Nat) : Bool :=
  match end_date with
  | some d => decide (d * 86400 < now)
  | none => false

/-- `ClientDb.active_clients` (clients_db.py lines 113-125): keep the screen
names whose record is active and whose subscription has not ended. -/
def active_clients (client_db : List (String × ClientRec)) (now : Nat) : List String :=
  (client_db.filter
    (fun p => p.2.active && !subscription_ended p.2.subscription_ends now)).map Prod.fst

/-! ## PhraseComposer (`PhraseMaker`, substitution.py) -/

/-- Python `str.find`: index of the first occurrence of `pat` in the string,
`none` (Python `-1`) when absent. -/
def pyFind (pat : List Char) : List Char → Option Nat
  | [] => if pat.isPrefixOf ([] : List Char) then some 0 else none
  | c :: rest =>
    if pat.isPrefixOf (c :: rest) then some 0
    else (pyFind pat rest).map (fun i => i + 1)

/-- One vocabulary entry: a plain replacement string or a Python list whose
element 0 is the singular and element 1 the plural form. -/
inductive VEntry where
  | vstr (w : List Char)
  | vlist (ws : List (List Char))
deriving DecidableEq, Repr

/-- The `PhraseMaker` object: its vocabulary and the `substitution_max`
stored by the initializer. -/
structure PhraseMaker where
  vocabulary : List (List Char × List VEntry)
  substitution_max : Int
deriving Repr

/-- `PhraseMaker.__init__` (substitution.py lines 13-29): reject a
`substitution_max` outside `[1, 1000]` with `ValueError`, else store it. -/
def phrase_maker_init (vocabulary : List (List Char × List VEntry))
    (substitution_max : Int) : Except PyErr PhraseMaker :=
  if substitution_max < 1 || substitution_max > 1000 then Except.error PyErr.valueError
  else Except.ok ⟨vocabulary, substitution_max⟩

/-- `random.choice(entries)` followed by the singular/plural selection of
substitution.py lines 67-74: `r` is the oracle's draw for this step, reduced
mod the list length; choosing from an empty list, or indexing a too-short
singular/plural list, raises `IndexError`. -/
def pickWord (entries : List VEntry) (r : Nat) (quantity : Int) : Except PyErr (List Char) :=
  match entries.get? (r % entries.length) with
  | none => Except.error PyErr.indexError
  | some (VEntry.vstr w) => Except.ok w
  | some (VEntry.vlist ws) =>
    if quantity == 1 then
      match ws.get? 0 with
      | some w => Except.ok w
      | none => Except.error PyErr.indexError
    else
      match ws.get? 1 with
      | some w => Except.ok w
      | none => Except.error PyErr.indexError

/-- Outcome of running `PhraseMaker.make` on bounded fuel: a returned string,
a raised exception, or fuel exhausted (the loop had not returned after that
many iterations). -/
inductive MakeResult where
  | ok (s : List Char)
  | raised (e : PyErr)
  | outOfFuel
deriving DecidableEq, Repr

/-- The `while open_position != -1` loop of `PhraseMaker.make`
(substitution.py lines 52-80), with fuel counting loop iterations. Note that,
exactly as in the source, `substitution_count` is incremented on every pass
but never compared against `substitution_max`: no branch of the body consults
the ceiling. -/
def makeLoop (pm : PhraseMaker) (choices : Nat → Nat) (quantity : Int) :
    Nat → Nat → List Char → MakeResult
  | 0, _, _ => MakeResult.outOfFuel
  | fuel + 1, substitution_count, result =>
    match pyFind ['{', '{'] result with
    | none => MakeResult.ok result
    | some open_position =>
      match pyFind ['}', '}'] result with
      | none => MakeResult.ok result
      | some close_position =>
        let keyword := (result.drop (open_position + 2)).take
          (close_position - (open_position + 2))
        match List.lookup keyword pm.vocabulary with
        | none => MakeResult.raised (PyErr.keyError (String.mk keyword))
        | some entries =>
          match pickWord entries (choices substitution_count) quantity with
          | Except.error e => MakeResult.raised e
          | Except.ok new_word =>
            makeLoop pm choices quantity fuel (substitution_count + 1)
              (result.take open_position ++ new_word ++ result.drop (close_position + 2))

/-- `PhraseMaker.make` (substitution.py lines 31-80) run on explicit fuel. -/
def make (pm : PhraseMaker) (template : List Char) (quantity : Int)
    (choices : Nat → Nat) (fuel : Nat) : MakeResult :=
  makeLoop pm choices quantity fuel 0 template

/-- Template `"{{A}}"`. -/
def cycTemplate : List Char := ['{', '{', 'A', '}', '}']

/-- Cyclic vocabulary `{"A": ["{{A}}"]}`: the sole replacement for keyword
`A` again contains the placeholder. -/
def cycVocabulary : List (List Char × List VEntry) := [(['A'], [VEntry.vstr cycTemplate])]

/-- A `PhraseMaker` built on the cyclic vocabulary with the default
`substitution_max = 100`. -/
def cycMaker : PhraseMaker := ⟨cycVocabulary, 100⟩

/-! ## ExclusiveLock (`Lock`, lock.py) -/

/-- Identity of the current lock holder, as served by its monitor thread:
`{"process_name": ..., "pid": ...}`. -/
structure LockOwner where
  process_name : String
  pid : Nat
deriving DecidableEq, Repr

/-- The contention message built in `Lock.lock` (lock.py lines 74-75) from
the holder identity returned by `get_lock_owner`. -/
def lock_message (o : LockOwner) : String :=
  "Locked by " ++ o.process_name ++ " (pid " ++ toString o.pid ++
    "). Try later or retry with --wait"

/-- Outcome of `Lock.lock`: returned `True`, raised `Exception(message)`, or
(for `wait=True` against a persistently held lock) still looping when the
fuel ran out. -/
inductive LockOutcome where
  | acquired
  | raised (msg : String)
  | outOfFuel
deriving DecidableEq, Repr

/-- The `while self.wait or not attempted` loop of `Lock.lock` (lock.py lines
63-81). `bindOk n` is the outcome of the `n`-th socket-bind attempt (the
environment); `holder` is the identity `get_lock_owner` obtains from the
current holder's monitor. The returned triple is the outcome together with
the number of bind attempts made and the number of 30-second sleeps taken.
The `raise Exception(message)` after the loop re-uses the message from the
last failed attempt. -/
def lockGo (wait : Bool) (bindOk : Nat → Bool) (holder : LockOwner) :
    Nat → Nat → Nat → LockOutcome × Nat × Nat
  | 0, attempts, sleeps => (LockOutcome.outOfFuel, attempts, sleeps)
  | fuel + 1, attempts, sleeps =>
    if wait || attempts == 0 then
      if bindOk attempts then (LockOutcome.acquired, attempts + 1, sleeps)
      else if wait then lockGo wait bindOk holder fuel (attempts + 1) (sleeps + 1)
      else lockGo wait bindOk holder fuel (attempts + 1) sleeps
    else (LockOutcome.raised (lock_message holder), attempts, sleeps)

/-- `Lock.lock` (lock.py lines 44-81) run on explicit fuel, starting with no
attempt made. -/
def lock (wait : Bool) (bindOk : Nat → Bool) (holder : LockOwner) (fuel : Nat) :
    LockOutcome × Nat × Nat :=
  lockGo wait bindOk holder fuel 0 0

/-! ## Supporting lemmas -/

theorem pickWord_cyc (r : Nat) (quantity : Int) :
    pickWord [VEntry.vstr cycTemplate] r quantity = Except.ok cycTemplate := by
  simp [pickWord, Nat.mod_one]

theorem makeLoop_cyc_step (choices : Nat → Nat) (quantity : Int) (fuel count : Nat) :
    makeLoop cycMaker choices quantity (fuel + 1) count cycTemplate =
      makeLoop cycMaker choices quantity fuel (count + 1) cycTemplate :=
  calc makeLoop cycMaker choices quantity (fuel + 1) count cycTemplate
      = (match pickWord [VEntry.vstr cycTemplate] (choices count) quantity with
         | Except.error e => MakeResult.raised e
         | Except.ok new_word =>
            makeLoop cycMaker choices quantity fuel (count + 1)
              (cycTemplate.take 0 ++ new_word ++ cycTemplate.drop 5)) := rfl
    _ = makeLoop cycMaker choices quantity fuel (count + 1)
          (cycTemplate.take 0 ++ cycTemplate ++ cycTemplate.drop 5) := by
            rw [pickWord_cyc]
    _ = makeLoop cycMaker choices quantity fuel (count + 1) cycTemplate := rfl

theorem makeLoop_cyc (choices : Nat → Nat) (quantity : Int) :
    ∀ fuel count : Nat,
      makeLoop cycMaker choices quantity fuel count cycTemplate = MakeResult.outOfFuel
  | 0, _ => rfl
  | fuel + 1, count =>
    (makeLoop_cyc_step choices quantity fuel count).trans
      (makeLoop_cyc choices quantity fuel (count + 1))

theorem dictInsert_lookup_self {α : Type} (d : List (String × α)) (k : String) (v : α) :
    List.lookup k (dictInsert d k v) = some v := by
  induction d with
  | nil => simp [dictInsert, List.lookup]
  | cons hd tl ih =>
    obtain ⟨k', v'⟩ := hd
    by_cases h : k' = k
    · simp [dictInsert, h, List.lookup]
    · have hne : (k' == k) = false := by simp [h]
      have hne' : (k == k') = false := by simp [Ne.symm h]
      simp [dictInsert, hne, List.lookup, hne', ih]

theorem subscription_ended_false_iff (ed : Option Nat) (now : Nat) :
    subscription_ended ed now = false ↔
      (ed = none ∨ ∃ d, ed = some d ∧ now ≤ d * 86400) := by
  cases ed with
  | none => simp [subscription_ended]
  | some d => simp [subscription_ended, Nat.not_lt]

/-! ## Claim theorems -/

/-- C2: the substitution ceiling is never enforced — against the cyclic
vocabulary `{"A": ["{{A}}"]}`, `make` on the template `"{{A}}"` performs a
substitution on every pass and never returns, for every random oracle, every
quantity, and every iteration budget `fuel` (in particular far beyond the
configured ceiling of 100): the loop increments `substitution_count` but
never compares it with `substitution_max`. -/
theorem make_cyclic_never_terminates (choices : Nat → Nat) (quantity : Int) (fuel : Nat) :
    make cycMaker cycTemplate quantity choices fuel = MakeResult.outOfFuel :=
  makeLoop_cyc choices quantity fuel 0

/-- C3: for every current follower list and every non-null previously saved
follower list, `compare_followers` returns a record whose `added` component
contains exactly the ids in `followers` that are not in `old_followers` and
whose `deleted` component contains exactly the ids in `old_followers` that are
not in `followers`; in particular previous `[1,2,3]` with current `[2,3,4]`
yields added `[4]` and deleted `[1]`. -/
theorem compare_followers_exact (followers old : List Nat) (a : Nat) :
    (∃ r, compare_followers followers (some old) = some r ∧
      (a ∈ r.added ↔ a ∈ followers ∧ a ∉ old) ∧
      (a ∈ r.deleted ↔ a ∈ old ∧ a ∉ followers)) ∧
    compare_followers [2, 3, 4] (some [1, 2, 3]) = some ⟨[4], [1]⟩ := by
  refine ⟨⟨follower_diff followers old, rfl, ?_, ?_⟩, by decide⟩ <;>
    simp [follower_diff, List.mem_filter]

/-- C8: diff symmetry — for all follower lists `X` and `Y`, the `added`
component of `follower_diff X Y` equals the `deleted` component of
`follower_diff Y X`, and vice versa. -/
theorem follower_diff_symmetry (X Y : List Nat) :
    (follower_diff X Y).added = (follower_diff Y X).deleted ∧
    (follower_diff X Y).deleted = (follower_diff Y X).added :=
  ⟨rfl, rfl⟩

/-- C4: `is_new_report` is true iff the gate has no entry for the screen name
or the stored last-sent timestamp is strictly earlier than the report date;
after `record_sent` at time `t`, `is_new_report` is false at `t` and true at
`t + 1`. -/
theorem is_new_report_spec (gate : Gate) (S : String) (t : Nat) :
    (is_new_report gate t S = true ↔
      List.lookup S gate = none ∨ ∃ l, List.lookup S gate = some l ∧ l < t) ∧
    is_new_report (record_sent gate S t) t S = false ∧
    is_new_report (record_sent gate S t) (t + 1) S = true := by
  refine ⟨?_, ?_, ?_⟩
  · unfold is_new_report
    cases h : List.lookup S gate with
    | none => simp
    | some l => simp [h]
  · unfold is_new_report record_sent
    rw [dictInsert_lookup_self]
    simp
  · unfold is_new_report record_sent
    rw [dictInsert_lookup_self]
    simp

/-- C5: if the external sink fails, `send_report` returns `False` and leaves
the gate unchanged; the gate is updated (via `record_sent`) only on a
confirmed successful delivery. -/
theorem send_report_failure_preserves_gate (now : Nat) (S : String) (gate : Gate) :
    send_report false now S gate = (false, gate) ∧
    send_report true now S gate = (true, record_sent gate S now) :=
  ⟨rfl, rfl⟩

/-- C1: at the claim's own scenario — current registry holding subscriber
`"A"` (active, far-future expiration) and discovered set `{"A", "B"}` —
`merge_clients` does not return the merged registry: the loop
`for screen_name, client in clients:` iterates dictionary keys and unpacking
the one-character key `"A"` raises `ValueError`. -/
theorem merge_clients_scenario_raises :
    merge_clients [("A", (⟨true, some 47119⟩ : ClientRec))]
      [("A", (⟨true, some 47119⟩ : ClientRec)), ("B", (⟨true, some 47484⟩ : ClientRec))] =
      Except.error PyErr.valueError := by
  rfl

/-- C6: `load_clients` returns the empty client mapping rather than failing
both when the registry backing file is missing and when it exists but is
unparseable. -/
theorem load_clients_degrades_to_empty :
    load_clients FileState.missing = Except.ok (Json.obj []) ∧
    load_clients FileState.unparseable = Except.ok (Json.obj []) :=
  ⟨rfl, rfl⟩

/-- C7 amended: `active_clients` returns exactly the subscribers whose record
is active and whose parsed expiration datetime (midnight of the expiration
day, `d * 86400`) is not earlier than the current datetime `now` — so a
record expiring today is dropped once any time past midnight has elapsed —
with an unparseable expiration date treated as not expired (fail-open). -/
theorem active_clients_spec (db : List (String × ClientRec)) (now : Nat) (s : String) :
    s ∈ active_clients db now ↔
      ∃ c, (s, c) ∈ db ∧ c.active = true ∧
        (c.subscription_ends = none ∨
          ∃ d, c.subscription_ends = some d ∧ now ≤ d * 86400) := by
  simp only [active_clients, List.mem_map, List.mem_filter, Bool.and_eq_true,
    Bool.not_eq_true']
  constructor
  · rintro ⟨⟨s', c⟩, ⟨hmem, hact, hend⟩, rfl⟩
    exact ⟨c, hmem, hact, (subscription_ended_false_iff _ _).mp hend⟩
  · rintro ⟨c, hmem, hact, hdate⟩
    exact ⟨(s, c), ⟨hmem, hact, (subscription_ended_false_iff _ _).mpr hdate⟩, rfl⟩

/-- C7 counterexample: a record that is active and expires on day `0`, read
one second past midnight of day `0` (`now = 1`, so today is day
`1 / 86400 = 0` and the expiration date is not earlier than today), is
nevertheless excluded by `active_clients` — refuting the claim that every
active record whose expiration date is not earlier than today is returned. -/
theorem active_clients_expires_today_excluded :
    active_clients [("A", (⟨true, some 0⟩ : ClientRec))] 1 = [] ∧ 1 / 86400 ≤ 0 := by
  decide

/-- C9: if the lock is already held (the first bind attempt fails) and
`wait` is false, `Lock.lock` raises immediately after exactly one bind
attempt with no sleep, and the error message carries the current holder's
process description and pid via `lock_message`. -/
theorem lock_nowait_single_attempt (holder : LockOwner) (bindOk : Nat → Bool)
    (fuel : Nat) (hf : 2 ≤ fuel) (hb : bindOk 0 = false) :
    lock false bindOk holder fuel = (LockOutcome.raised (lock_message holder), 1, 0) := by
  obtain ⟨k, rfl⟩ := Nat.exists_eq_add_of_le hf
  simp only [lock]
  rw [show 2 + k = k + 1 + 1 by omega]
  simp [lockGo, hb]

/-- C9 witness: with the lock held by the process `"tracker"` with pid
`1234` and a never-succeeding bind, the non-waiting acquirer is told
`Locked by tracker (pid 1234)` after one attempt and zero sleeps. -/
theorem lock_nowait_single_attempt_witness :
    2 ≤ 2 ∧ (fun _ : Nat => false) 0 = false ∧
    lock false (fun _ => false) ⟨"tracker", 1234⟩ 2 =
      (LockOutcome.raised "Locked by tracker (pid 1234). Try later or retry with --wait",
        1, 0) := by
  refine ⟨le_refl 2, rfl, ?_⟩
  have h := lock_nowait_single_attempt ⟨"tracker", 1234⟩ (fun _ => false) 2 (le_refl 2) rfl
  rw [h]
  decide

/-- C10: when the backing file parses to JSON that is not an object carrying
a `"clients"` key, `load_clients` propagates an uncaught exception (the
subscript `client_db["clients"]` sits outside the handlers) instead of
returning an empty mapping. -/
theorem load_clients_nonobj_raises (j : Json)
    (h : ∀ fields, j = Json.obj fields → List.lookup "clients" fields = none) :
    ∃ e, load_clients (FileState.content j) = Except.error e := by
  cases j with
  | obj fields =>
    refine ⟨PyErr.keyError "clients", ?_⟩
    simp [load_clients, jsonGetItem, h fields rfl]
  | arr es => exact ⟨PyErr.typeError, rfl⟩
  | str s => exact ⟨PyErr.typeError, rfl⟩
  | num n => exact ⟨PyErr.typeError, rfl⟩
  | bool b => exact ⟨PyErr.typeError, rfl⟩
  | null => exact ⟨PyErr.typeError, rfl⟩

/-- C10 witness: the file parsing to the JSON array `[]` satisfies the
hypothesis and makes `load_clients` raise. -/
theorem load_clients_nonobj_raises_witness :
    (∀ fields, Json.arr [] = Json.obj fields → List.lookup "clients" fields = none) ∧
    ∃ e, load_clients (FileState.content (Json.arr [])) = Except.error e := by
  refine ⟨fun _ h => (nomatch h), ?_⟩
  exact load_clients_nonobj_raises (Json.arr []) (fun _ h => nomatch h)

end NotTrcp
